import Mathlib

/-!
# National Risk Index Dashboard — verification development

Shallow embedding of `src/nri_dashboard_app.py` (a Streamlit dashboard over
the FEMA National Risk Index county table) and proofs about it.

Modelling conventions:
* A dataframe is a list of (pandas index, row) pairs (`Df`).  Boolean-mask
  filtering keeps the original index labels; `reset_index(drop=True)`
  renumbers them `0..n-1`.
* Possibly-missing numeric columns (`RISK_SCORE`, `SOVI_SCORE`, `RESL_SCORE`,
  `EAL_VALT`) are `Option ℚ` (`none` = NaN); `df.dropna()` keeps the rows
  where all of them are `some`, and a pandas `mean` averages the present
  values.
* The derived columns `REGION`, `POP_GROUP`, `Cluster` are `Option`-valued
  fields of every row (`none` = column absent / NaN for that row).
* The composite of `StandardScaler().fit_transform` and
  `KMeans(n_clusters=3, random_state=42).fit_predict` is an opaque parameter
  `kmeans : List (List ℚ) → List ℕ` mapping the feature matrix to one label
  per input row, positionally.  `random_state=42` fixes the seed, so the
  composite is a pure function of its input, which is exactly how it is
  modelled.
* The `try/except` body of `load_data` (HTTP fetch, zip open, `read_csv`) is
  modelled as an `Except String (List Row)` input: `.ok rows` is a successful
  fetch-and-parse, `.error e` an exception with message `e`.
-/

/-- One county record: the columns of the source table that the dashboard
uses (`STATE`, `COUNTY`, `STCOFIPS`, `POPULATION`, `RISK_SCORE`,
`SOVI_SCORE`, `RESL_SCORE`, `EAL_VALT`) plus the derived columns. -/
structure Row where
  state : String
  county : String
  stcofips : String
  population : Nat
  risk_score : Option ℚ
  sovi_score : Option ℚ
  resl_score : Option ℚ
  eal_valt : Option ℚ
  region : Option String := none
  pop_group : Option String := none
  cluster : Option Nat := none
deriving DecidableEq, Repr

/-- A dataframe: rows tagged with their pandas index labels. -/
abbrev Df := List (Nat × Row)

/-- The static state-to-region lookup table (`region_map`, lines 27–39 of
`nri_dashboard_app.py`). -/
def region_map : List (String × String) :=
  [("Connecticut", "Northeast"), ("Maine", "Northeast"), ("Massachusetts", "Northeast"),
   ("New Hampshire", "Northeast"), ("Rhode Island", "Northeast"), ("Vermont", "Northeast"),
   ("New Jersey", "Northeast"), ("New York", "Northeast"), ("Pennsylvania", "Northeast"),
   ("Illinois", "Midwest"), ("Indiana", "Midwest"), ("Michigan", "Midwest"),
   ("Ohio", "Midwest"), ("Wisconsin", "Midwest"), ("Iowa", "Midwest"),
   ("Kansas", "Midwest"), ("Minnesota", "Midwest"), ("Missouri", "Midwest"),
   ("Nebraska", "Midwest"), ("North Dakota", "Midwest"), ("South Dakota", "Midwest"),
   ("Delaware", "South"), ("Florida", "South"), ("Georgia", "South"),
   ("Maryland", "South"), ("North Carolina", "South"), ("South Carolina", "South"),
   ("Virginia", "South"), ("District of Columbia", "South"), ("West Virginia", "South"),
   ("Alabama", "South"), ("Kentucky", "South"), ("Mississippi", "South"),
   ("Tennessee", "South"), ("Arkansas", "South"), ("Louisiana", "South"),
   ("Oklahoma", "South"), ("Texas", "South"), ("Arizona", "West"),
   ("Colorado", "West"), ("Idaho", "West"), ("Montana", "West"),
   ("Nevada", "West"), ("New Mexico", "West"), ("Utah", "West"),
   ("Wyoming", "West"), ("Alaska", "West"), ("California", "West"),
   ("Hawaii", "West"), ("Oregon", "West"), ("Washington", "West")]

/-- Pandas `Series.map(region_map)`: dictionary lookup, `NaN` (`none`) when the key
is absent. -/
def lookupRegion (s : String) : Option String :=
  (region_map.find? (fun p => p.1 == s)).map Prod.snd

/-- The loader `load_data` (lines 17–46): on a successful fetch-and-parse the rows are
loaded, `df['REGION'] = df['STATE'].map(region_map)` derives the region
column, and the index is `0..n-1`; on any exception the error is surfaced as
the message `"Error loading data: ..."` (via `st.error`) and an empty
dataframe is returned.  The second component collects the emitted error
messages. -/
def load_data (fetch : Except String (List Row)) : Df × List String :=
  match fetch with
  | .ok rows =>
      ((rows.map (fun r =>
          { r with region := lookupRegion r.state,
                   pop_group := none, cluster := none })).enum, [])
  | .error e => ([], ["Error loading data: " ++ e])

/-- Pandas `Series.isin(sel)` for the possibly-NaN `REGION` column: NaN is never a
member of a list of selected region names. -/
def isinOpt (o : Option String) (sel : List String) : Bool :=
  match o with
  | some s => sel.contains s
  | none => false

/-- The filter chain (lines 78–82): region filter, then state filter when
the state selection is nonempty, then county filter when the county
selection is nonempty. -/
def filtered_df (df : Df) (selR selS selC : List String) : Df :=
  let f1 := df.filter (fun p => isinOpt p.2.region selR)
  let f2 := if selS.isEmpty then f1 else f1.filter (fun p => selS.contains p.2.state)
  if selC.isEmpty then f2 else f2.filter (fun p => selC.contains p.2.county)

/-- Worker for `pandas_unique`: `seen` holds the values already emitted. -/
def pandas_unique_go (seen : List String) : List String → List String
  | [] => []
  | x :: xs =>
      if seen.contains x then pandas_unique_go seen xs
      else x :: pandas_unique_go (x :: seen) xs

/-- Pandas `Series.unique()`: distinct values in order of first occurrence. -/
def pandas_unique (l : List String) : List String :=
  pandas_unique_go [] l

/-- State options (line 60): states of the rows whose region is in the
selected region set. -/
def states_options (df : Df) (selR : List String) : List String :=
  pandas_unique ((df.filter (fun p => isinOpt p.2.region selR)).map (fun p => p.2.state))

/-- County options (line 65): counties of the rows whose state is in the
selected state set, and `[]` when no state is selected. -/
def counties_options (df : Df) (selS : List String) : List String :=
  if selS.isEmpty then []
  else pandas_unique ((df.filter (fun p => selS.contains p.2.state)).map (fun p => p.2.county))

/-- The choice of the `"Group by:"` radio widget (line 114). -/
inductive GroupOption where
  | state
  | region
  | popGroup
deriving DecidableEq, Repr

/-- The `np.select` call over the three population conditions (lines 121–127):
`< 50000 → 'Small'`, `50000 ≤ · < 500000 → 'Medium'`, `≥ 500000 → 'Large'`,
default `'Unknown'`. -/
def np_select_pop (p : Nat) : String :=
  if p < 50000 then "Small"
  else if 50000 ≤ p ∧ p < 500000 then "Medium"
  else if 500000 ≤ p then "Large"
  else "Unknown"

/-- Line 127, `df['POP_GROUP'] = np.select(...)`: sets the `POP_GROUP`
column on every row of the base dataframe. -/
def assign_pop_group (df : Df) : Df :=
  df.map (fun p => (p.1, { p.2 with pop_group := some (np_select_pop p.2.population) }))

/-- Line 128, `filtered_df['POP_GROUP'] = df['POP_GROUP']`: column
assignment aligned on the pandas index; each target row receives the source
value stored under its own index label (`none` when the label is absent in
the source). -/
def align_pop_group (target src : Df) : Df :=
  target.map (fun p =>
    (p.1, { p.2 with pop_group := (src.find? (fun q => q.1 == p.1)).bind (fun q => q.2.pop_group) }))

/-- The filtered dataframe as it stands after the bar-chart section
(lines 116–129): grouping by Population Group first derives `POP_GROUP` on
the base dataframe and copies it onto the filtered one; the other choices
leave it untouched. -/
def grouped_filtered (df fdf : Df) (g : GroupOption) : Df :=
  match g with
  | .popGroup => align_pop_group fdf (assign_pop_group df)
  | _ => fdf

/-- The grouping key of a row for the chosen `group_col`; `none` is a NaN
key, which `groupby` drops. -/
def group_key (g : GroupOption) (r : Row) : Option String :=
  match g with
  | .state => some r.state
  | .region => r.region
  | .popGroup => r.pop_group

/-- Pandas `Series.mean()`: the mean of the present (non-NaN) values, `NaN`
(`none`) when there is none. -/
def optMean (l : List (Option ℚ)) : Option ℚ :=
  let v := l.filterMap id
  if v.isEmpty then none else some (v.sum / v.length)

/-- The `RISK_SCORE` column of the rows of group `g`. -/
def group_scores (fdf : Df) (key : Row → Option String) (g : String) : List (Option ℚ) :=
  (fdf.filter (fun p => key p.2 == some g)).map (fun p => p.2.risk_score)

/-- Comparator used by `sort_values(ascending=False)` on the mean column:
larger means first, `NaN` last. -/
def le_bar (a b : String × Option ℚ) : Bool :=
  match a.2, b.2 with
  | some x, some y => decide (y ≤ x)
  | some _, none => true
  | none, some _ => false
  | none, none => true

/-- Insert an entry into a list already sorted by `le_bar`. -/
def insert_desc (a : String × Option ℚ) : List (String × Option ℚ) → List (String × Option ℚ)
  | [] => [a]
  | b :: l => if le_bar a b then a :: b :: l else b :: insert_desc a l

/-- Sort bar-chart entries by mean descending (`sort_values(ascending=False)`);
the algorithm is irrelevant to the claims, only that the result is a
permutation. -/
def sort_desc : List (String × Option ℚ) → List (String × Option ℚ)
  | [] => []
  | a :: l => insert_desc a (sort_desc l)

/-- Line 131, `filtered_df.groupby(group_col)['RISK_SCORE'].mean()
.sort_values(ascending=False).reset_index()`: one entry per
distinct non-NaN key, carrying the pandas mean of that group's risk scores,
sorted by mean descending. -/
def avg_risk (fdf : Df) (key : Row → Option String) : List (String × Option ℚ) :=
  sort_desc ((pandas_unique (fdf.filterMap (fun p => key p.2))).map
    (fun g => (g, optMean (group_scores fdf key g))))

/-- The scatterplot data (lines 137–140): the filtered dataframe, restricted
to `POPULATION < 1_000_000` when the `hide_outliers` checkbox is on. -/
def scatter_df (hide : Bool) (fdf : Df) : Df :=
  if hide then fdf.filter (fun p => p.2.population < 1000000) else fdf

/-- Line 182, `filtered_df[cluster_cols].dropna()`: the rows whose four
feature columns are all present, with their original index labels. -/
def dropna_cluster (fdf : Df) : Df :=
  fdf.filter (fun p =>
    p.2.risk_score.isSome && p.2.sovi_score.isSome && p.2.resl_score.isSome && p.2.eal_valt.isSome)

/-- The feature matrix handed to the scaler and K-Means: one
`[RISK_SCORE, SOVI_SCORE, RESL_SCORE, EAL_VALT]` vector per retained row. -/
def cluster_features (cdf : Df) : List (List ℚ) :=
  cdf.map (fun p =>
    [p.2.risk_score.getD 0, p.2.sovi_score.getD 0, p.2.resl_score.getD 0, p.2.eal_valt.getD 0])

/-- Line 189, `cluster_df['Cluster'] = kmeans.fit_predict(X_scaled)`:
labels are positional, so retained row `k` (index label `iₖ`) gets label
`labels[k]`. -/
def cluster_labels (cdf : Df) (labels : List Nat) : List (Nat × Nat) :=
  (cdf.map Prod.fst).zip labels

/-- Line 191, `filtered_df.reset_index(drop=True)`: discard the index
labels and renumber `0..n-1`. -/
def reset_index (fdf : Df) : Df :=
  (fdf.map Prod.snd).enum

/-- Line 192, `filtered_df['Cluster'] = cluster_df['Cluster']`: column
assignment aligned on the pandas index; a row whose index label has no
entry in the cluster series gets `NaN` (`none`). -/
def join_clusters (fdf : Df) (cl : List (Nat × Nat)) : Df :=
  fdf.map (fun p =>
    (p.1, { p.2 with cluster := (cl.find? (fun q => q.1 == p.1)).map Prod.snd }))

/-- The clustering section (lines 179–192): drop NaN feature rows, run the
(seeded, hence deterministic) scaler+K-Means composite on the feature
matrix, store the labels on `cluster_df`, then rebind `filtered_df` to its
reset-index form and assign the cluster column by index alignment.  When
every feature row is NaN the section body is skipped. -/
def clustering_step (fdf : Df) (kmeans : List (List ℚ) → List Nat) : Df :=
  let cdf := dropna_cluster fdf
  if cdf.isEmpty then fdf
  else join_clusters (reset_index fdf) (cluster_labels cdf (kmeans (cluster_features cdf)))

/-- A character that forces pandas `to_csv` (QUOTE_MINIMAL) to quote the
field: the delimiter, the quote char, or a line terminator. -/
def needsQ (c : Char) : Bool :=
  c = ',' || c = '"' || c = '\n' || c = '\r'

/-- Double every quote character of a field body, the CSV escape. -/
def esc_chars : List Char → List Char
  | [] => []
  | c :: cs => if c = '"' then '"' :: '"' :: esc_chars cs else c :: esc_chars cs

/-- Serialize one field: quoted (with doubled inner quotes) when it contains
a special character, verbatim otherwise. -/
def field_chars (f : List Char) : List Char :=
  if f.any needsQ then '"' :: (esc_chars f ++ ['"']) else f

/-- Serialize one record: fields joined by commas. -/
def line_chars : List (List Char) → List Char
  | [] => []
  | [f] => field_chars f
  | f :: fs => field_chars f ++ ',' :: line_chars fs

/-- Serialize a list of records, each line terminated by a newline, as
`DataFrame.to_csv` does. -/
def csv_chars (rows : List (List (List Char))) : List Char :=
  (rows.map (fun r => line_chars r ++ ['\n'])).flatten

/-- Pandas `DataFrame.to_csv(index=False)` at the level of string fields. -/
def to_csv (rows : List (List String)) : String :=
  ⟨csv_chars (rows.map (fun r => r.map String.data))⟩

/-- Tokenizer state: outside quotes / inside quotes / just saw a quote while
inside quotes (it is either the closing quote or the first half of a doubled
literal quote). -/
inductive QState where
  | normal
  | inQ
  | qq
deriving DecidableEq, Repr

/-- The CSV reader, a character-at-a-time scanner in the style of the
pandas/`csv` tokenizer: `fld` is the current field, `rec` the current
record, `acc` the finished records.  A doubled quote inside quotes is a
literal quote; a quote opens a quoted section only at the start of a field;
blank lines are skipped (`skip_blank_lines=True`); at end of input a
pending record is flushed. -/
def csv_scan : List Char → QState → List Char → List (List Char) → List (List (List Char)) → List (List (List Char))
  | [], .normal, fld, rec, acc =>
      if fld.isEmpty && rec.isEmpty then acc else acc ++ [rec ++ [fld]]
  | [], _, fld, rec, acc => acc ++ [rec ++ [fld]]
  | c :: cs, .normal, fld, rec, acc =>
      if c = ',' then csv_scan cs .normal [] (rec ++ [fld]) acc
      else if c = '\n' then
        if fld.isEmpty && rec.isEmpty then csv_scan cs .normal [] [] acc
        else csv_scan cs .normal [] [] (acc ++ [rec ++ [fld]])
      else if c = '"' && fld.isEmpty then csv_scan cs .inQ fld rec acc
      else csv_scan cs .normal (fld ++ [c]) rec acc
  | c :: cs, .inQ, fld, rec, acc =>
      if c = '"' then csv_scan cs .qq fld rec acc
      else csv_scan cs .inQ (fld ++ [c]) rec acc
  | c :: cs, .qq, fld, rec, acc =>
      if c = '"' then csv_scan cs .inQ (fld ++ ['"']) rec acc
      else if c = ',' then csv_scan cs .normal [] (rec ++ [fld]) acc
      else if c = '\n' then csv_scan cs .normal [] [] (acc ++ [rec ++ [fld]])
      else csv_scan cs .normal (fld ++ [c]) rec acc

/-- Parse a CSV string into its records of string fields. -/
def read_csv_all (s : String) : List (List String) :=
  (csv_scan s.data .normal [] [] []).map (fun r => r.map (fun f => (⟨f⟩ : String)))

/-- The `pd.read_csv` view of the records: the first record is the header, the
rest are the data rows. -/
def read_csv (s : String) : List (List String) :=
  (read_csv_all s).drop 1

/-- The string rendering of a possibly-NaN numeric cell: NaN prints as the
empty field. -/
def optQ_str : Option ℚ → String
  | none => ""
  | some q => toString q

/-- The string rendering of a possibly-absent string cell. -/
def opt_str : Option String → String
  | none => ""
  | some s => s

/-- The string rendering of a possibly-absent label cell. -/
def optN_str : Option Nat → String
  | none => ""
  | some n => toString n

/-- The exported columns of the modelled table, in order. -/
def nri_header : List String :=
  ["STATE", "COUNTY", "STCOFIPS", "POPULATION", "RISK_SCORE", "SOVI_SCORE",
   "RESL_SCORE", "EAL_VALT", "REGION", "POP_GROUP", "Cluster"]

/-- One exported CSV data row: the string renderings of a row's fields. -/
def row_fields (r : Row) : List String :=
  [r.state, r.county, r.stcofips, toString r.population,
   optQ_str r.risk_score, optQ_str r.sovi_score, optQ_str r.resl_score,
   optQ_str r.eal_valt, opt_str r.region, opt_str r.pop_group, optN_str r.cluster]

/-- Line 210, `filtered_df.to_csv(index=False)`: header line then one line
per row. -/
def df_to_csv (fdf : Df) : String :=
  to_csv (nri_header :: fdf.map (fun p => row_fields p.2))

/-- The widget state of one script run: the three multiselects, the two
quick-view buttons, the grouping radio, and the checkboxes the claims
concern. -/
structure Selections where
  regions : List String
  states : List String
  counties : List String
  highRisk : Bool
  largeMetro : Bool
  groupOpt : GroupOption
  hideOutliers : Bool
  runClustering : Bool
deriving DecidableEq, Repr

/-- The quick-view buttons (lines 71–75): `High Risk States` overrides the
region selection; `Large Metro Counties` overrides both the region and the
state selection. -/
def apply_quick_views (hr lm : Bool) (selR selS : List String) : List String × List String :=
  let selR1 := if hr then ["South", "Northeast"] else selR
  if lm then (["West", "South"], ["California", "Texas", "Florida", "New York"])
  else (selR1, selS)

/-- What the dashboard branch renders: the filtered-row count, the bar-chart
aggregation, the scatterplot data, the final filtered table, and the CSV
offered for download. -/
structure DashboardOutput where
  nCounties : Nat
  avgRiskBar : List (String × Option ℚ)
  scatterData : Df
  finalTable : Df
  csvExport : String
deriving DecidableEq, Repr

/-- The screen the app shows: the dashboard (filters, charts, export) when
the loaded table is nonempty, otherwise the empty-state error screen
(line 217). -/
inductive AppView where
  | errorScreen
  | dashboard (d : DashboardOutput)
deriving DecidableEq, Repr

/-- The observable outcome of one script run: the screen, the `st.error`
messages emitted, and the value of the base dataframe `df` when the script
ends. -/
structure RunResult where
  view : AppView
  messages : List String
  dfAfter : Df
deriving DecidableEq, Repr

/-- One top-to-bottom run of the script (lines 52–217) given the outcome of
the fetch-and-parse, the widget state, and the seeded scaler+K-Means
composite: load, branch on emptiness, resolve quick views, filter, derive
`POP_GROUP` when grouping by population (which also mutates the run's base
dataframe), aggregate, build the scatter data, optionally cluster, and
build the CSV export from the final filtered table. -/
def app_run (fetch : Except String (List Row)) (sel : Selections)
    (kmeans : List (List ℚ) → List Nat) : RunResult :=
  let (df, msgs) := load_data fetch
  if df.isEmpty then
    { view := .errorScreen,
      messages := msgs ++ ["Dataset could not be loaded. Please check your internet connection."],
      dfAfter := df }
  else
    let (selR, selS) := apply_quick_views sel.highRisk sel.largeMetro sel.regions sel.states
    let fdf := filtered_df df selR selS sel.counties
    let fdf1 := grouped_filtered df fdf sel.groupOpt
    let bar := avg_risk fdf1 (group_key sel.groupOpt)
    let sdf := scatter_df sel.hideOutliers fdf1
    let fdf2 := if sel.runClustering then clustering_step fdf1 kmeans else fdf1
    { view := .dashboard
        { nCounties := fdf.length, avgRiskBar := bar, scatterData := sdf,
          finalTable := fdf2, csvExport := df_to_csv fdf2 },
      messages := msgs,
      dfAfter := match sel.groupOpt with
        | .popGroup => assign_pop_group df
        | _ => df }

/-- A claim phrased from the spec's words, for comparison with the code's
`scatter_df`: the filtered table with exactly the rows whose `POPULATION`
exceeds 1,000,000 removed. -/
def scatter_df_spec (hide : Bool) (fdf : Df) : Df :=
  if hide then fdf.filter (fun p => !(decide (p.2.population > 1000000))) else fdf

/-- Concrete fixture: a raw parsed row, before `load_data` derives the
region.  Its population sits exactly on the scatterplot's 1,000,000
boundary. -/
def exTexasRaw : Row :=
  { state := "Texas", county := "Travis", stcofips := "48453",
    population := 1000000, risk_score := some 10, sovi_score := some 6,
    resl_score := some 4, eal_valt := some 100 }

/-- The same row as `load_data` produces it: region derived from the
lookup table. -/
def exTexasLoaded : Row :=
  { exTexasRaw with region := some "South" }

/-- Concrete fixture: a one-row loaded dataframe. -/
def exDf1 : Df := [(0, exTexasLoaded)]

/-- A concrete stand-in for the seeded scaler+K-Means composite: every
input vector goes to cluster `0`.  Which labels K-Means actually produces
is irrelevant to the join claims. -/
def exKmeans : List (List ℚ) → List Nat :=
  fun xs => xs.map (fun _ => 0)

/-- Widget state grouping by Population Group, everything else off. -/
def selPop : Selections :=
  { regions := ["South"], states := [], counties := [], highRisk := false,
    largeMetro := false, groupOpt := .popGroup, hideOutliers := false,
    runClustering := false }

/-- Widget state grouping by State, everything else off. -/
def selState : Selections :=
  { selPop with groupOpt := .state }

/-! ## Helper lemmas -/

theorem mem_pandas_unique_go (l : List String) : ∀ (seen : List String) (a : String),
    a ∈ pandas_unique_go seen l ↔ (a ∈ l ∧ a ∉ seen) := by
  induction l with
  | nil => intro seen a; simp [pandas_unique_go]
  | cons x xs ih =>
    intro seen a
    simp only [pandas_unique_go]
    by_cases hx : seen.contains x
    · rw [if_pos hx]
      rw [ih]
      have hxs : x ∈ seen := by simpa using hx
      constructor
      · rintro ⟨h1, h2⟩; exact ⟨List.mem_cons_of_mem _ h1, h2⟩
      · rintro ⟨h1, h2⟩
        rcases List.mem_cons.mp h1 with h | h
        · subst h; exact absurd hxs h2
        · exact ⟨h, h2⟩
    · rw [if_neg hx]
      have hxs : x ∉ seen := by simpa using hx
      simp only [List.mem_cons, ih, not_or]
      by_cases hax : a = x
      · subst hax; tauto
      · tauto

theorem mem_pandas_unique (l : List String) (a : String) :
    a ∈ pandas_unique l ↔ a ∈ l := by
  simp [pandas_unique, mem_pandas_unique_go]

theorem nodup_pandas_unique_go (l : List String) : ∀ seen : List String,
    (pandas_unique_go seen l).Nodup := by
  induction l with
  | nil => intro seen; simp [pandas_unique_go]
  | cons x xs ih =>
    intro seen
    simp only [pandas_unique_go]
    by_cases hx : seen.contains x
    · rw [if_pos hx]; exact ih seen
    · rw [if_neg hx]
      refine List.Nodup.cons ?_ (ih (x :: seen))
      intro hc
      exact ((mem_pandas_unique_go xs (x :: seen) x).mp hc).2 (List.mem_cons_self x seen)

theorem nodup_pandas_unique (l : List String) : (pandas_unique l).Nodup :=
  nodup_pandas_unique_go l []

theorem isinOpt_true_iff (o : Option String) (sel : List String) :
    isinOpt o sel = true ↔ ∃ s ∈ sel, o = some s := by
  cases o with
  | none => simp [isinOpt]
  | some s => simp [isinOpt, eq_comm]

theorem mem_insert_desc (a b : String × Option ℚ) (l : List (String × Option ℚ)) :
    a ∈ insert_desc b l ↔ a = b ∨ a ∈ l := by
  induction l with
  | nil => simp [insert_desc]
  | cons c l ih =>
    simp only [insert_desc]
    by_cases h : le_bar b c
    · simp [h, List.mem_cons]
    · simp only [if_neg h, List.mem_cons, ih]
      tauto

theorem insert_desc_perm (a : String × Option ℚ) (l : List (String × Option ℚ)) :
    (insert_desc a l).Perm (a :: l) := by
  induction l with
  | nil => simp [insert_desc]
  | cons c l ih =>
    simp only [insert_desc]
    by_cases h : le_bar a c
    · simp [h]
    · rw [if_neg h]
      exact (ih.cons c).trans (List.Perm.swap a c l)

theorem sort_desc_perm (l : List (String × Option ℚ)) :
    (sort_desc l).Perm l := by
  induction l with
  | nil => simp [sort_desc]
  | cons a l ih =>
    exact (insert_desc_perm a (sort_desc l)).trans (ih.cons a)

theorem mem_sort_desc (a : String × Option ℚ) (l : List (String × Option ℚ)) :
    a ∈ sort_desc l ↔ a ∈ l :=
  (sort_desc_perm l).mem_iff

/-- Every region label stored in the lookup table is nonempty. -/
theorem region_map_values_nonempty : ∀ q ∈ region_map, q.2 ≠ "" := by decide

theorem filtered_df_sublist (df : Df) (selR selS selC : List String) :
    (filtered_df df selR selS selC).Sublist df := by
  unfold filtered_df
  have h1 : (df.filter (fun p => isinOpt p.2.region selR)).Sublist df :=
    List.filter_sublist _
  by_cases hS : selS.isEmpty <;> by_cases hC : selC.isEmpty <;>
    simp only [hS, hC, if_true, if_false, Bool.false_eq_true, ite_true, ite_false] <;>
    first
      | exact h1
      | exact (List.filter_sublist _).trans h1
      | exact ((List.filter_sublist _).trans (List.filter_sublist _)).trans h1

theorem mem_filtered_region (df : Df) (selR selS selC : List String) (p : Nat × Row)
    (hp : p ∈ filtered_df df selR selS selC) : isinOpt p.2.region selR = true := by
  unfold filtered_df at hp
  by_cases hS : selS.isEmpty <;> by_cases hC : selC.isEmpty <;>
    simp only [hS, hC, if_true, if_false, Bool.false_eq_true, ite_true, ite_false,
      List.mem_filter] at hp <;>
    tauto

/-! ## C3: derived region is non-empty iff the state is in the lookup table -/

/-- C3: for every row of the loaded dataset, the derived `REGION` equals the
lookup of the row's state in the static table; it is present iff the state
has an entry, and every present region label is nonempty (a state with no
entry is left unset). -/
theorem C3_region_lookup (rows : List Row) (p : Nat × Row)
    (hp : p ∈ (load_data (.ok rows)).1) :
    p.2.region = lookupRegion p.2.state ∧
    (p.2.region.isSome ↔ (region_map.find? (fun q => q.1 == p.2.state)).isSome) ∧
    (∀ rg, p.2.region = some rg → rg ≠ "") := by
  simp only [load_data] at hp
  obtain ⟨i, q⟩ := p
  have h2 := (List.of_mem_zip (by simpa [List.enum_eq_zip_range] using hp)).2
  rcases List.mem_map.mp h2 with ⟨r, hr, hfr⟩
  have hreg : q.region = lookupRegion q.state := by
    subst hfr; rfl
  refine ⟨hreg, ?_, ?_⟩
  · rw [hreg]; simp [lookupRegion]
  · intro rg hrg
    rw [hreg] at hrg
    simp only [lookupRegion, Option.map_eq_some'] at hrg
    rcases hrg with ⟨e, he, he2⟩
    subst he2
    exact region_map_values_nonempty e (List.mem_of_find?_eq_some he)

theorem C3_region_lookup_witness :
    (0, exTexasLoaded).2.region = lookupRegion (0, exTexasLoaded).2.state :=
  (C3_region_lookup [exTexasRaw] (0, exTexasLoaded) (by decide)).1

/-! ## C4: filtering is a subset relation over the selected regions -/

/-- C4: the filtered dataframe is a sublist of the original, and every row
of it carries a region drawn from the selected region set. -/
theorem C4_filter_subset (df : Df) (selR selS selC : List String) (p : Nat × Row)
    (hp : p ∈ filtered_df df selR selS selC) :
    (filtered_df df selR selS selC).Sublist df ∧ ∃ s ∈ selR, p.2.region = some s :=
  ⟨filtered_df_sublist df selR selS selC,
   (isinOpt_true_iff _ _).mp (mem_filtered_region df selR selS selC p hp)⟩

theorem C4_filter_subset_witness :
    (filtered_df exDf1 ["South"] [] []).Sublist exDf1 ∧
    ∃ s ∈ ["South"], (0, exTexasLoaded).2.region = some s :=
  C4_filter_subset exDf1 ["South"] [] [] (0, exTexasLoaded) (by decide)

/-! ## C6: cascading option lists -/

/-- C6: the state options are exactly the states of the rows whose region is
in the selected region set; the county options are exactly the counties of
the rows whose state is in the selected state set, and empty when no state
is selected. -/
theorem C6_cascading_options (df : Df) (selR selS : List String) :
    (∀ s, s ∈ states_options df selR ↔
        ∃ p ∈ df, (∃ rg ∈ selR, p.2.region = some rg) ∧ p.2.state = s) ∧
    (∀ c, c ∈ counties_options df selS ↔
        selS ≠ [] ∧ ∃ p ∈ df, p.2.state ∈ selS ∧ p.2.county = c) ∧
    (selS = [] → counties_options df selS = []) := by
  refine ⟨?_, ?_, ?_⟩
  · intro s
    simp only [states_options, mem_pandas_unique, List.mem_map, List.mem_filter]
    constructor
    · rintro ⟨p, ⟨hpd, hin⟩, hst⟩
      exact ⟨p, hpd, (isinOpt_true_iff _ _).mp hin, hst⟩
    · rintro ⟨p, hpd, hin, hst⟩
      exact ⟨p, ⟨hpd, (isinOpt_true_iff _ _).mpr hin⟩, hst⟩
  · intro c
    simp only [counties_options]
    by_cases hS : selS.isEmpty
    · have hnil : selS = [] := List.isEmpty_iff.mp hS
      simp [hS, hnil]
    · have hne : selS ≠ [] := fun hc => hS (by simp [hc])
      simp only [hS, Bool.false_eq_true, ite_false, mem_pandas_unique, List.mem_map,
        List.mem_filter, hne, ne_eq, not_false_eq_true, true_and]
      constructor
      · rintro ⟨p, ⟨hpd, hin⟩, hco⟩
        exact ⟨p, hpd, by simpa using hin, hco⟩
      · rintro ⟨p, hpd, hin, hco⟩
        exact ⟨p, ⟨hpd, by simpa using hin⟩, hco⟩
  · intro h
    simp [counties_options, h]

theorem C6_cascading_options_witness :
    counties_options exDf1 [] = [] :=
  (C6_cascading_options exDf1 [] []).2.2 rfl

/-! ## C2: groupby-mean aggregation -/

theorem filterMap_id_length (l : List (Option ℚ)) (hl : ∀ x ∈ l, x ≠ none) :
    (l.filterMap id).length = l.length := by
  induction l with
  | nil => rfl
  | cons x xs ih =>
    cases x with
    | none => exact absurd rfl (hl none (List.mem_cons_self _ _))
    | some a =>
      simp [List.filterMap_cons, ih (fun y hy => hl y (List.mem_cons_of_mem _ hy))]

theorem optMean_eq_of_ne_nil (l : List (Option ℚ)) (h : l.filterMap id ≠ []) :
    optMean l = some ((l.filterMap id).sum / (l.filterMap id).length) := by
  simp only [optMean]
  rw [if_neg (by simpa [List.isEmpty_iff] using h)]

/-- C2: every group with at least one row in the (possibly
population-grouped) filtered table gets an entry in the bar-chart
aggregation carrying the pandas mean of that group's risk scores; group
keys appear exactly once; and on all-present score lists that pandas mean
is the arithmetic mean (sum over count) of the rows' scores. -/
theorem C2_groupby_mean (df : Df) (selR selS selC : List String) (g : GroupOption)
    (grp : String)
    (h : some grp ∈ (grouped_filtered df (filtered_df df selR selS selC) g).map
        (fun p => group_key g p.2)) :
    ((grp, optMean (group_scores (grouped_filtered df (filtered_df df selR selS selC) g)
          (group_key g) grp))
        ∈ avg_risk (grouped_filtered df (filtered_df df selR selS selC) g) (group_key g)) ∧
    ((avg_risk (grouped_filtered df (filtered_df df selR selS selC) g)
        (group_key g)).map Prod.fst).Nodup ∧
    (∀ l : List (Option ℚ), l ≠ [] → (∀ x ∈ l, x ≠ none) →
        optMean l = some ((l.filterMap id).sum / l.length)) := by
  set fdf := grouped_filtered df (filtered_df df selR selS selC) g with hf
  refine ⟨?_, ?_, ?_⟩
  · rw [avg_risk, mem_sort_desc]
    apply List.mem_map.mpr
    refine ⟨grp, ?_, rfl⟩
    rw [mem_pandas_unique]
    rcases List.mem_map.mp h with ⟨p, hp, hk⟩
    exact List.mem_filterMap.mpr ⟨p, hp, hk⟩
  · rw [avg_risk]
    have hperm := (sort_desc_perm ((pandas_unique (fdf.filterMap
        (fun p => group_key g p.2))).map
        (fun g0 => (g0, optMean (group_scores fdf (group_key g) g0))))).map Prod.fst
    rw [hperm.nodup_iff, List.map_map]
    have hid : (Prod.fst ∘ fun g0 =>
        (g0, optMean (group_scores fdf (group_key g) g0))) = id := rfl
    rw [hid, List.map_id]
    exact nodup_pandas_unique _
  · intro l hne hl
    have hlen : (l.filterMap id).length = l.length := filterMap_id_length l hl
    have hpos : l.length ≠ 0 := by simpa [List.length_eq_zero] using hne
    have hnil : l.filterMap id ≠ [] := by
      intro hc
      exact hpos (by rw [← hlen, hc]; rfl)
    rw [optMean_eq_of_ne_nil l hnil, hlen]

theorem C2_groupby_mean_witness :
    ("Texas", optMean (group_scores
        (grouped_filtered exDf1 (filtered_df exDf1 ["South"] [] []) .state)
        (group_key .state) "Texas"))
      ∈ avg_risk (grouped_filtered exDf1 (filtered_df exDf1 ["South"] [] []) .state)
          (group_key .state) :=
  (C2_groupby_mean exDf1 ["South"] [] [] .state "Texas" (by decide)).1

/-! ## C1: CSV round-trip -/

theorem csv_scan_esc (f : List Char) :
    ∀ (rest fld : List Char) (rec : List (List Char)) (acc : List (List (List Char))),
    csv_scan (esc_chars f ++ '"' :: rest) .inQ fld rec acc
      = csv_scan rest .qq (fld ++ f) rec acc := by
  induction f with
  | nil =>
    intro rest fld rec acc
    simp [esc_chars, csv_scan]
  | cons c cs ih =>
    intro rest fld rec acc
    by_cases hc : c = '"'
    · subst hc
      rw [show esc_chars ('"' :: cs) = '"' :: '"' :: esc_chars cs by simp [esc_chars]]
      simp only [List.cons_append]
      rw [show csv_scan ('"' :: ('"' :: (esc_chars cs ++ '"' :: rest))) .inQ fld rec acc
            = csv_scan ('"' :: (esc_chars cs ++ '"' :: rest)) .qq fld rec acc by
          simp [csv_scan]]
      rw [show csv_scan ('"' :: (esc_chars cs ++ '"' :: rest)) .qq fld rec acc
            = csv_scan (esc_chars cs ++ '"' :: rest) .inQ (fld ++ ['"']) rec acc by
          simp [csv_scan]]
      rw [ih]
      simp
    · rw [show esc_chars (c :: cs) = c :: esc_chars cs by simp [esc_chars, hc]]
      simp only [List.cons_append]
      rw [show csv_scan (c :: (esc_chars cs ++ '"' :: rest)) .inQ fld rec acc
            = csv_scan (esc_chars cs ++ '"' :: rest) .inQ (fld ++ [c]) rec acc by
          simp [csv_scan, hc]]
      rw [ih]
      simp

theorem csv_scan_plain (f : List Char) :
    ∀ (rest fld : List Char) (rec : List (List Char)) (acc : List (List (List Char))),
    (∀ c ∈ f, needsQ c = false) →
    csv_scan (f ++ rest) .normal fld rec acc = csv_scan rest .normal (fld ++ f) rec acc := by
  induction f with
  | nil => intro rest fld rec acc _; simp
  | cons c cs ih =>
    intro rest fld rec acc hall
    have hc := hall c (List.mem_cons_self _ _)
    have h1 : ¬ c = ',' := by intro h; subst h; simp [needsQ] at hc
    have h2 : ¬ c = '\n' := by intro h; subst h; simp [needsQ] at hc
    have h3 : ¬ c = '"' := by intro h; subst h; simp [needsQ] at hc
    simp only [List.cons_append]
    rw [show csv_scan (c :: (cs ++ rest)) .normal fld rec acc
          = csv_scan (cs ++ rest) .normal (fld ++ [c]) rec acc by
        simp [csv_scan, h1, h2, h3]]
    rw [ih _ _ _ _ (fun c' hc' => hall c' (List.mem_cons_of_mem _ hc'))]
    simp

theorem csv_scan_line (r : List (List Char)) :
    ∀ (rest : List Char) (rec : List (List Char)) (acc : List (List (List Char))),
    (rec = [] → 2 ≤ r.length) → 1 ≤ r.length →
    csv_scan (line_chars r ++ '\n' :: rest) .normal [] rec acc
      = csv_scan rest .normal [] [] (acc ++ [rec ++ r]) := by
  induction r with
  | nil => intro rest rec acc _ h1; simp at h1
  | cons f fs ih =>
    intro rest rec acc h2 h1
    cases fs with
    | nil =>
      have hrec : rec ≠ [] := by
        intro hcon
        have := h2 hcon
        simp at this
      have hrecE : rec.isEmpty = false := by simpa [List.isEmpty_iff] using hrec
      by_cases hq : f.any needsQ
      · simp only [line_chars, field_chars, if_pos hq]
        rw [show ('"' :: (esc_chars f ++ ['"'])) ++ '\n' :: rest
              = '"' :: (esc_chars f ++ '"' :: ('\n' :: rest)) by simp]
        rw [show csv_scan ('"' :: (esc_chars f ++ '"' :: ('\n' :: rest))) .normal [] rec acc
              = csv_scan (esc_chars f ++ '"' :: ('\n' :: rest)) .inQ [] rec acc by
            simp [csv_scan]]
        rw [csv_scan_esc]
        simp [csv_scan]
      · simp only [line_chars, field_chars, if_neg hq]
        have hall : ∀ c ∈ f, needsQ c = false := by
          intro c hcf
          cases hnc : needsQ c
          · rfl
          · exact absurd (List.any_eq_true.mpr ⟨c, hcf, hnc⟩) hq
        rw [csv_scan_plain f _ _ _ _ hall]
        simp [csv_scan, hrecE]
    | cons f2 fs2 =>
      have hne : rec ++ [f] ≠ [] := by simp
      by_cases hq : f.any needsQ
      · simp only [line_chars, field_chars, if_pos hq]
        rw [show (('"' :: (esc_chars f ++ ['"'])) ++ ',' :: line_chars (f2 :: fs2)) ++ '\n' :: rest
              = '"' :: (esc_chars f ++ '"' :: (',' :: (line_chars (f2 :: fs2) ++ '\n' :: rest))) by
            simp]
        rw [show csv_scan ('"' :: (esc_chars f ++ '"' ::
              (',' :: (line_chars (f2 :: fs2) ++ '\n' :: rest)))) .normal [] rec acc
              = csv_scan (esc_chars f ++ '"' ::
                  (',' :: (line_chars (f2 :: fs2) ++ '\n' :: rest))) .inQ [] rec acc by
            simp [csv_scan]]
        rw [csv_scan_esc]
        rw [show csv_scan (',' :: (line_chars (f2 :: fs2) ++ '\n' :: rest)) .qq ([] ++ f) rec acc
              = csv_scan (line_chars (f2 :: fs2) ++ '\n' :: rest) .normal [] (rec ++ [[] ++ f]) acc by
            simp [csv_scan]]
        rw [ih _ _ _ (fun hcon => absurd hcon (by simp)) (by simp)]
        simp
      · simp only [line_chars, field_chars, if_neg hq]
        have hall : ∀ c ∈ f, needsQ c = false := by
          intro c hcf
          cases hnc : needsQ c
          · rfl
          · exact absurd (List.any_eq_true.mpr ⟨c, hcf, hnc⟩) hq
        rw [show (f ++ ',' :: line_chars (f2 :: fs2)) ++ '\n' :: rest
              = f ++ (',' :: (line_chars (f2 :: fs2) ++ '\n' :: rest)) by simp]
        rw [csv_scan_plain f _ _ _ _ hall]
        rw [show csv_scan (',' :: (line_chars (f2 :: fs2) ++ '\n' :: rest)) .normal ([] ++ f) rec acc
              = csv_scan (line_chars (f2 :: fs2) ++ '\n' :: rest) .normal [] (rec ++ [[] ++ f]) acc by
            simp [csv_scan]]
        rw [ih _ _ _ (fun hcon => absurd hcon (by simp)) (by simp)]
        simp

theorem csv_scan_rows (rows : List (List (List Char))) :
    ∀ acc : List (List (List Char)), (∀ r ∈ rows, 2 ≤ r.length) →
    csv_scan (csv_chars rows) .normal [] [] acc = acc ++ rows := by
  induction rows with
  | nil => intro acc _; simp [csv_chars, csv_scan]
  | cons r rows ih =>
    intro acc h
    have heq : csv_chars (r :: rows) = line_chars r ++ '\n' :: csv_chars rows := by
      simp [csv_chars]
    have hr : 2 ≤ r.length := h r (List.mem_cons_self _ _)
    rw [heq, csv_scan_line r _ [] acc (fun _ => hr) (le_trans (by norm_num) hr)]
    rw [ih _ (fun r' hr' => h r' (List.mem_cons_of_mem _ hr'))]
    simp

theorem read_csv_all_to_csv (rows : List (List String)) (h : ∀ r ∈ rows, 2 ≤ r.length) :
    read_csv_all (to_csv rows) = rows := by
  unfold read_csv_all to_csv
  rw [show (⟨csv_chars (rows.map (fun r => r.map String.data))⟩ : String).data
        = csv_chars (rows.map (fun r => r.map String.data)) from rfl]
  rw [csv_scan_rows _ [] (by
    intro r' hr'
    rcases List.mem_map.mp hr' with ⟨r, hr, hre⟩
    subst hre
    simpa using h r hr)]
  rw [List.nil_append, List.map_map]
  have hcomp : ((fun (r : List (List Char)) => r.map (fun f => (⟨f⟩ : String)))
      ∘ (fun (r : List String) => r.map String.data)) = id := by
    funext r
    simp only [Function.comp, List.map_map]
    have : ((fun f => (⟨f⟩ : String)) ∘ String.data) = id := by
      funext s
      rfl
    rw [this, List.map_id, id]
  rw [hcomp, List.map_id]

/-- C1: the exported CSV round-trips — reading back the CSV written for the
filtered table yields exactly one record per row, carrying exactly the
row's field values. -/
theorem C1_csv_roundtrip (fdf : Df) :
    read_csv (df_to_csv fdf) = fdf.map (fun p => row_fields p.2) := by
  unfold read_csv df_to_csv
  rw [read_csv_all_to_csv]
  · rfl
  · intro r hr
    rcases List.mem_cons.mp hr with h | h
    · subst h
      norm_num [nri_header]
    · rcases List.mem_map.mp h with ⟨p, _, hpe⟩
      subst hpe
      norm_num [row_fields]



/-! ## C5: single failure mode and empty-state error screen -/

/-- C5: a failed fetch-or-parse is caught and surfaced as a user-visible
message, the load returns an empty table, and the app renders only the
empty-state error screen; conversely the error screen is shown exactly when
the loaded table is empty. -/
theorem C5_error_handling :
    (∀ e : String, load_data (.error e) = ([], ["Error loading data: " ++ e])) ∧
    (∀ (e : String) (sel : Selections) (kmeans : List (List ℚ) → List Nat),
        app_run (.error e) sel kmeans =
          { view := .errorScreen,
            messages := ["Error loading data: " ++ e,
                         "Dataset could not be loaded. Please check your internet connection."],
            dfAfter := [] }) ∧
    (∀ (fetch : Except String (List Row)) (sel : Selections)
        (kmeans : List (List ℚ) → List Nat),
        (app_run fetch sel kmeans).view = .errorScreen ↔ (load_data fetch).1 = []) := by
  refine ⟨fun e => rfl, fun e sel kmeans => rfl, ?_⟩
  intro fetch sel kmeans
  rcases hld : load_data fetch with ⟨df, msgs⟩
  simp only [app_run, hld]
  by_cases hdf : df.isEmpty
  · simp [hdf, List.isEmpty_iff.mp hdf]
  · have hne : df ≠ [] := by simpa [List.isEmpty_iff] using hdf
    simp [hdf, hne]

/-! ## C7: effect of a run on the base table -/

/-- C7 fails as stated: grouping by Population Group mutates the run's base
dataframe by adding the derived `POP_GROUP` column (line 127), so the base
table after the run differs from the load output. -/
theorem C7_base_mutated_counterexample :
    (app_run (.ok [exTexasRaw]) selPop exKmeans).dfAfter ≠ (load_data (.ok [exTexasRaw])).1 := by
  decide

/-- C7 (amended): a run never changes the base table's rows, index labels,
or load-produced column values — after erasing the derived `POP_GROUP`
column the final base table equals the load output — and any grouping other
than Population Group leaves the base table entirely unchanged. -/
theorem erase_pop_group_assign (df : Df) :
    (assign_pop_group df).map (fun p => (p.1, { p.2 with pop_group := none }))
      = df.map (fun p => (p.1, { p.2 with pop_group := none })) := by
  rw [assign_pop_group, List.map_map]
  rfl

theorem C7_run_table_preservation (rows : List Row) (sel : Selections)
    (kmeans : List (List ℚ) → List Nat) :
    ((app_run (.ok rows) sel kmeans).dfAfter.map (fun p => (p.1, { p.2 with pop_group := none }))
        = (load_data (.ok rows)).1.map (fun p => (p.1, { p.2 with pop_group := none }))) ∧
    (sel.groupOpt ≠ .popGroup →
        (app_run (.ok rows) sel kmeans).dfAfter = (load_data (.ok rows)).1) := by
  rcases hld : load_data (.ok rows) with ⟨df, msgs⟩
  simp only [app_run, hld]
  by_cases hdf : df.isEmpty
  · rw [if_pos hdf]
    exact ⟨rfl, fun _ => rfl⟩
  · rw [if_neg hdf]
    refine ⟨?_, ?_⟩
    · cases hg : sel.groupOpt
      · exact rfl
      · exact rfl
      · exact erase_pop_group_assign df
    · intro hg
      cases hgopt : sel.groupOpt
      · rfl
      · rfl
      · exact absurd hgopt hg

theorem C7_run_table_preservation_witness :
    (app_run (.ok [exTexasRaw]) selState exKmeans).dfAfter = (load_data (.ok [exTexasRaw])).1 :=
  (C7_run_table_preservation [exTexasRaw] selState exKmeans).2 (by decide)

/-! ## C8: scatterplot outlier exclusion -/

/-- C8 fails as stated: a county with population exactly 1,000,000 does not
exceed 1,000,000, yet the code removes it (`POPULATION < 1_000_000` keeps
strictly smaller rows only). -/
theorem C8_scatter_counterexample :
    scatter_df true [(0, exTexasLoaded)] ≠ scatter_df_spec true [(0, exTexasLoaded)] := by
  decide

/-- C8 (amended): with the checkbox on, the scatter data is the filtered
table with exactly the rows of population at least 1,000,000 removed — a
row is retained iff its population is strictly below 1,000,000 — and with
the checkbox off it is the filtered table unchanged. -/
theorem C8_outlier_exclusion (hide : Bool) (fdf : Df) :
    (scatter_df hide fdf).Sublist fdf ∧
    (∀ p ∈ fdf, p ∈ scatter_df hide fdf ↔ (hide = true → p.2.population < 1000000)) ∧
    scatter_df false fdf = fdf := by
  refine ⟨?_, ?_, rfl⟩
  · cases hide
    · exact List.Sublist.refl _
    · simp only [scatter_df, ite_true]
      exact List.filter_sublist _
  · intro p hp
    cases hide
    · simp [scatter_df, hp]
    · simp [scatter_df, List.mem_filter, hp]

theorem C8_outlier_exclusion_witness :
    (0, exTexasLoaded) ∈ scatter_df false [(0, exTexasLoaded)] ↔
      (false = true → (0, exTexasLoaded).2.population < 1000000) :=
  (C8_outlier_exclusion false [(0, exTexasLoaded)]).2.1 (0, exTexasLoaded) (by decide)

/-! ## C9: cluster labels joined back onto the filtered table -/

/-- C9 fails on the code: a filtered table whose original index labels are
not `0..n-1` (here a single row with label 1) loses its cluster labels in
the join — `cluster_df` keeps the pre-reset labels while `filtered_df` is
renumbered from 0 before the aligned assignment, so the displayed `Cluster`
is `NaN` (`none`) for every row that entered the clustering, whatever
labels K-Means produced. -/
theorem C9_cluster_join_misaligned (km : List (List ℚ) → List Nat) :
    dropna_cluster [(1, exTexasLoaded)] = [(1, exTexasLoaded)] ∧
    (clustering_step [(1, exTexasLoaded)] km).map (fun p => p.2.cluster) = [none] := by
  have h1 : dropna_cluster [(1, exTexasLoaded)] = [(1, exTexasLoaded)] := by decide
  refine ⟨h1, ?_⟩
  simp only [clustering_step]
  rw [h1]
  cases hkm : km (cluster_features [(1, exTexasLoaded)]) with
  | nil => rfl
  | cons a as => rfl

/-! ## C10: determinism of the pipeline -/

/-- C10: the whole pipeline is a pure function of the fetched data, the
widget selections and the (seeded) clustering function: two runs on equal
inputs produce identical outputs — the same filtered table, aggregation,
cluster labels, and byte-for-byte identical CSV export. -/
theorem C10_determinism (f1 f2 : Except String (List Row)) (s1 s2 : Selections)
    (k1 k2 : List (List ℚ) → List Nat)
    (hf : f1 = f2) (hs : s1 = s2) (hk : k1 = k2) :
    app_run f1 s1 k1 = app_run f2 s2 k2 := by
  subst hf
  subst hs
  subst hk
  rfl

theorem C10_determinism_witness :
    app_run (.ok [exTexasRaw]) selState exKmeans = app_run (.ok [exTexasRaw]) selState exKmeans :=
  C10_determinism _ _ _ _ _ _ rfl rfl rfl
